import Mathlib

/-!
# JWT auth gas (`gases/jwt.go`)

A shallow embedding of the JWT authentication middleware of the `air` web
framework, and theorems about credential extraction, the key-supply callback
and the per-request pipeline.

Conventions of the embedding:

* a Go `string` is its byte sequence (`len` and slicing count bytes);
* a Go `error` value is a `GoError`; `nil` is `none`;
* a call that can panic returns `Go α`: either a returned value or the panic;
* the token parser `jwt.Parse` is an external library: it is a parameter;
* the request context and the next handler belong to the framework: the
  context is a record of its three capabilities, the handler a function.
-/

namespace Gases

/-! ## Go values -/

/-- A Go string: an immutable byte sequence. -/
abbrev GoString := List UInt8

/-- The bytes of a Go string literal (Go source text is UTF-8). -/
def goStr (s : String) : GoString := s.toList.flatMap String.utf8EncodeChar

/-- A Go byte slice: `none` is the nil slice, `some []` an empty non-nil one. -/
abbrev Bytes := Option (List UInt8)

/-- Go error values met by the middleware: `errors.New` / `fmt.Errorf` texts,
the framework's HTTP errors, and errors of other packages (token library,
downstream handlers). -/
inductive GoError where
  | errorString (text : GoString)
  | httpError (code : Nat) (message : GoString)
  | foreign (tag : Nat) (text : GoString)
deriving DecidableEq

/-- The text `err.Error()` returns. -/
def GoError.Error : GoError → GoString
  | .errorString text => text
  | .httpError _ message => message
  | .foreign _ text => text

/-- Outcome of a Go call that may panic. -/
inductive Go (α : Type) where
  | returned (a : α)
  | panicked (v : GoString)
deriving DecidableEq

/-- Whether the call panicked. -/
def Go.isPanic {α : Type} : Go α → Bool
  | .returned _ => false
  | .panicked _ => true

/-- Panic value of a nil pointer / nil interface dereference. -/
def nilDereference : GoString :=
  goStr "runtime error: invalid memory address or nil pointer dereference"

/-- Panic value of an index expression outside the slice. -/
def indexOutOfRange : GoString := goStr "runtime error: index out of range"

/-- `strings.Split(s, sep)` for a one-byte separator: the pieces of `s` between
consecutive occurrences of `sep` (always at least one piece). -/
def stringsSplit (sep : UInt8) : GoString → List GoString
  | [] => [[]]
  | b :: rest =>
    if b = sep then [] :: stringsSplit sep rest
    else
      match stringsSplit sep rest with
      | [] => [[b]]
      | p :: ps => (b :: p) :: ps

/-! ## Token library (`github.com/dgrijalva/jwt-go`) -/

/-- The fields of `jwt.Token` the middleware reads. `Method` is the signing
method, given by what its `Alg()` returns (`none`: nil method); `HeaderAlg` is
`Header["alg"]` (`none`: no such entry). -/
structure Token where
  Method : Option GoString
  HeaderAlg : Option GoString
  Claims : List (GoString × GoString)
  Valid : Bool
deriving DecidableEq

/-- What a `jwt.Keyfunc` returns: `(interface{}, error)`; the key is a byte
slice here. -/
abbrev KeyfuncResult := Option Bytes × Option GoError

/-- The type `jwt.Keyfunc`. -/
abbrev Keyfunc := Token → Go KeyfuncResult

/-- What `jwt.Parse` returns: `(*Token, error)`. -/
abbrev ParseResult := Option Token × Option GoError

/-- The type of `jwt.Parse`. -/
abbrev Parser := GoString → Keyfunc → Go ParseResult

/-- The text `%v` prints for `t.Header["alg"]`. -/
def fmtV : Option GoString → GoString
  | none => goStr "<nil>"
  | some s => s

/-! ## Framework (`air`) -/

/-- Values stored in the request context (`interface{}`): parsed tokens, or
anything else. -/
inductive Value where
  | token (t : Token)
  | other (tag : Nat)
deriving DecidableEq

/-- Modelled from the spec: the request context `air.Context`, whose
declaration is not in this package. It has the three capabilities the
middleware consumes: read a named request header (absent reads as the empty
string), read a named query parameter (absent reads as the empty string), and
a keyed value store. -/
structure Context where
  header : GoString → GoString
  queryParam : GoString → GoString
  store : GoString → Option Value

/-- Modelled from the spec: `c.Set(key, val)` sets a value under a string key
and touches nothing else. -/
def Context.Set (c : Context) (key : GoString) (val : Value) : Context :=
  { c with store := fun k => if k = key then some val else c.store k }

/-- Modelled from the spec: `air.HeaderAuthorization`, the name of the
`Authorization` header (the default lookup is "header:Authorization"). -/
def HeaderAuthorization : GoString := goStr "Authorization"

/-- The constant `http.StatusBadRequest`. -/
def StatusBadRequest : Nat := 400

/-- The constant `http.StatusUnauthorized`. -/
def StatusUnauthorized : Nat := 401

/-- Modelled from the spec: `air.NewHTTPError(code, msg)`, an HTTP error with
the given status and message. -/
def NewHTTPError (code : Nat) (msg : GoString) : GoError := .httpError code msg

/-- Modelled from the spec: `air.ErrUnauthorized`, the framework's
401 Unauthorized error with its default message. -/
def ErrUnauthorized : GoError := NewHTTPError StatusUnauthorized (goStr "Unauthorized")

/-- The type `air.HandlerFunc`, `func(Context) error`: the context as the call
leaves it, and the returned error or the panic. -/
abbrev HandlerFunc := Context → Context × Go (Option GoError)

/-- The type `air.GasFunc`. -/
abbrev GasFunc := HandlerFunc → HandlerFunc

/-! ## `gases/jwt.go` -/

/-- The struct `JWTConfig`. -/
structure JWTConfig where
  SigningKey : Bytes
  SigningMethod : GoString
  ContextKey : GoString
  TokenLookup : GoString
deriving DecidableEq

/-- The type `jwtExtractor`. -/
abbrev jwtExtractor := Context → GoString × Option GoError

/-- The constant `bearer`. -/
def bearer : GoString := goStr "Bearer"

/-- The constant `AlgorithmHS256`. -/
def AlgorithmHS256 : GoString := goStr "HS256"

/-- The variable `DefaultJWTConfig`. -/
def DefaultJWTConfig : JWTConfig :=
  { SigningKey := none
    SigningMethod := AlgorithmHS256
    ContextKey := goStr "user"
    TokenLookup := goStr "header:" ++ HeaderAuthorization }

/-- The function `jwtFromHeader`. The slices `auth[:l]` and `auth[l+1:]` are
only evaluated when `len(auth) > l+1`, so they are in range. -/
def jwtFromHeader (header : GoString) : jwtExtractor := fun c =>
  let auth := c.header header
  let l := bearer.length
  if auth.length > l + 1 && auth.take l == bearer then
    (auth.drop (l + 1), none)
  else
    (goStr "", some (.errorString (goStr "empty or invalid jwt in authorization header")))

/-- The function `jwtFromQuery`. -/
def jwtFromQuery (param : GoString) : jwtExtractor := fun c =>
  let token := c.queryParam param
  if token == goStr "" then
    (goStr "", some (.errorString (goStr "empty jwt in query param")))
  else
    (token, none)

/-- The key-supply callback handed to `jwt.Parse` (lines 103-110). -/
def keyFunc (config : JWTConfig) : Keyfunc := fun t =>
  match t.Method with
  | none => .panicked nilDereference
  | some alg =>
    if alg != config.SigningMethod then
      .returned (none, some (.errorString
        (goStr "unexpected jwt signing method=" ++ fmtV t.HeaderAlg)))
    else
      .returned (some config.SigningKey, none)

/-- A call the decorated handler makes to a collaborator. -/
inductive Call where
  | parse (auth : GoString)
  | set (key : GoString) (val : Value)
  | next (c : Context)

/-- Whether the call is an invocation of the next handler. -/
def Call.isNext : Call → Bool
  | .next _ => true
  | _ => false

/-- Whether the call is an invocation of the token parser. -/
def Call.isParse : Call → Bool
  | .parse _ => true
  | _ => false

/-- Whether the call writes to the request context. -/
def Call.isSet : Call → Bool
  | .set _ _ => true
  | _ => false

/-- One run of the decorated handler: the collaborator calls it made, in
order, the context as it leaves it, and what it returns. -/
structure Run where
  calls : List Call
  ctx : Context
  ret : Go (Option GoError)

/-- The body of the decorated handler (lines 98-117), with its collaborator
calls recorded. -/
def handle (parse : Parser) (config : JWTConfig) (extractor : jwtExtractor)
    (next : HandlerFunc) (c : Context) : Run :=
  match extractor c with
  | (_, some err) =>
    { calls := [], ctx := c,
      ret := .returned (some (NewHTTPError StatusBadRequest err.Error)) }
  | (auth, none) =>
    match parse auth (keyFunc config) with
    | .panicked v => { calls := [.parse auth], ctx := c, ret := .panicked v }
    | .returned (_, some _) =>
      { calls := [.parse auth], ctx := c, ret := .returned (some ErrUnauthorized) }
    | .returned (none, none) =>
      { calls := [.parse auth], ctx := c, ret := .panicked nilDereference }
    | .returned (some token, none) =>
      if token.Valid then
        let c1 := c.Set config.ContextKey (.token token)
        let out := next c1
        { calls := [.parse auth, .set config.ContextKey (.token token), .next c1],
          ctx := out.1, ret := out.2 }
      else
        { calls := [.parse auth], ctx := c, ret := .returned (some ErrUnauthorized) }

/-- The configuration and the extractor the middleware closes over. -/
structure Resolved where
  config : JWTConfig
  extractor : jwtExtractor

/-- The defaults of `JWTWithConfig` (lines 79-87): each empty field among
signing method, context key and token lookup takes its value from
`DefaultJWTConfig`. -/
def withDefaults (config : JWTConfig) : JWTConfig :=
  let config :=
    if config.SigningMethod = goStr "" then
      { config with SigningMethod := DefaultJWTConfig.SigningMethod }
    else config
  let config :=
    if config.ContextKey = goStr "" then
      { config with ContextKey := DefaultJWTConfig.ContextKey }
    else config
  let config :=
    if config.TokenLookup = goStr "" then
      { config with TokenLookup := DefaultJWTConfig.TokenLookup }
    else config
  config

/-- The initialisation of `JWTWithConfig` (lines 89-95): split the token
lookup at ":" (byte 58) and bind the extractor. `parts[1]` is evaluated first
and panics when the split has fewer than two parts. -/
def bindExtractor (config : JWTConfig) : Go Resolved :=
  match stringsSplit 58 config.TokenLookup with
  | p0 :: p1 :: _ =>
    let extractor := jwtFromHeader p1
    let extractor := if p0 = goStr "query" then jwtFromQuery p1 else extractor
    .returned { config := config, extractor := extractor }
  | _ => .panicked indexOutOfRange

/-- The construction part of `JWTWithConfig` (lines 75-95): the key check,
then the defaults, then the binding of the extractor. -/
def resolve (config : JWTConfig) : Go Resolved :=
  if config.SigningKey = none then
    .panicked (goStr "jwt gas requires signing key")
  else
    bindExtractor (withDefaults config)

/-- The function `JWTWithConfig`. -/
def JWTWithConfig (parse : Parser) (config : JWTConfig) : Go GasFunc :=
  match resolve config with
  | .panicked v => .panicked v
  | .returned r =>
    .returned (fun next c =>
      let run := handle parse r.config r.extractor next c
      (run.ctx, run.ret))

/-- The function `JWT`. -/
def JWT (parse : Parser) (key : Bytes) : Go GasFunc :=
  JWTWithConfig parse { DefaultJWTConfig with SigningKey := key }

/-! ## Sample requests and collaborators -/

/-- A request carrying header `name` with value `v`, no other header, no
query parameter, and an empty value store. -/
def requestWithHeader (name v : GoString) : Context :=
  { header := fun n => if n = name then v else goStr ""
    queryParam := fun _ => goStr ""
    store := fun _ => none }

/-- A parser that rejects every credential with a library error. -/
def rejectingParser : Parser :=
  fun _ _ => .returned (none, some (.foreign 1 (goStr "token is malformed")))

/-- A token declaring algorithm `alg`, with validity flag `valid`. -/
def sampleToken (alg : GoString) (valid : Bool) : Token :=
  { Method := some alg, HeaderAlg := some alg,
    Claims := [(goStr "sub", goStr "alice")], Valid := valid }

/-- A parser that accepts every credential as `sampleToken alg valid`, asking
the key callback for nothing. -/
def fixedParser (alg : GoString) (valid : Bool) : Parser :=
  fun _ _ => .returned (some (sampleToken alg valid), none)

/-- A downstream handler that returns nil and leaves the context alone. -/
def okHandler : HandlerFunc := fun c => (c, .returned none)

/-- A downstream handler that fails with its own error. -/
def failingHandler : HandlerFunc :=
  fun c => (c, .returned (some (.foreign 7 (goStr "teapot"))))

/-- A configuration with the given key and every other field empty. -/
def keyOnlyConfig (key : Bytes) : JWTConfig :=
  { SigningKey := key, SigningMethod := goStr "", ContextKey := goStr "",
    TokenLookup := goStr "" }

/-- Verification failed: the parser returned an error, or a token whose
`Valid` flag is false. -/
def verificationFails : Go ParseResult → Bool
  | .returned (_, some _) => true
  | .returned (some token, none) => !token.Valid
  | _ => false

/-- A request carrying query parameter `name` with value `v`, no other
parameter, no header, and an empty value store. -/
def requestWithQuery (name v : GoString) : Context :=
  { header := fun _ => goStr ""
    queryParam := fun n => if n = name then v else goStr ""
    store := fun _ => none }

/-- The extractor that the initialisation binds for `config`, run on a
request; the panic when the initialisation panics. -/
def boundExtractorOn (config : JWTConfig) (c : Context) : Go (GoString × Option GoError) :=
  match bindExtractor config with
  | .panicked v => .panicked v
  | .returned r => .returned (r.extractor c)

/-- A configuration with the given key and token lookup, the other fields
empty. -/
def lookupConfig (key : Bytes) (lookup : GoString) : JWTConfig :=
  { SigningKey := key, SigningMethod := goStr "", ContextKey := goStr "",
    TokenLookup := lookup }

/-- The configuration with signing key `key` and the documented default
values written out: "HS256", "user", "header:Authorization". -/
def spelledDefaults (key : Bytes) : JWTConfig :=
  { SigningKey := key, SigningMethod := goStr "HS256", ContextKey := goStr "user",
    TokenLookup := goStr "header:Authorization" }

/-- A parser that asks the key callback for the key of `sampleToken alg true`
and accepts the credential as that token exactly when the callback supplies a
key without error; otherwise it returns the token with `Valid` false and the
callback's error (or a library error). -/
def keyAskingParser (alg : GoString) : Parser := fun _ keyFunc =>
  match keyFunc (sampleToken alg true) with
  | .panicked v => .panicked v
  | .returned (some _, none) => .returned (some (sampleToken alg true), none)
  | .returned (_, some e) => .returned (some (sampleToken alg false), some e)
  | .returned (none, none) =>
    .returned (some (sampleToken alg false), some (.foreign 2 (goStr "key is invalid")))

/-! ## The package variable as explicit state -/

/-- The package-level variables of `gases/jwt.go`: `DefaultJWTConfig` is the
only one. -/
structure Package where
  DefaultJWTConfig : JWTConfig
deriving DecidableEq

/-- The package as its initialiser leaves it (lines 50-57). -/
def initialPackage : Package := { DefaultJWTConfig := DefaultJWTConfig }

/-- The defaults of `JWTWithConfig` (lines 79-87), reading the package variable
`DefaultJWTConfig` from its current value `d`. The assignments write the
callee's own parameter `config`. -/
def withDefaultsFrom (d : JWTConfig) (config : JWTConfig) : JWTConfig :=
  let config :=
    if config.SigningMethod = goStr "" then
      { config with SigningMethod := d.SigningMethod }
    else config
  let config :=
    if config.ContextKey = goStr "" then
      { config with ContextKey := d.ContextKey }
    else config
  let config :=
    if config.TokenLookup = goStr "" then
      { config with TokenLookup := d.TokenLookup }
    else config
  config

/-- The function `JWTWithConfig` with the package variable as explicit state:
the package as the call finds it goes in, the package as the call leaves it
comes out with the result. `config` is passed by value; the returned
middleware closes over that local `config`, not over the package variable. -/
def JWTWithConfigIn (parse : Parser) (pkg : Package) (config : JWTConfig) :
    Package × Go GasFunc :=
  if config.SigningKey = none then
    (pkg, .panicked (goStr "jwt gas requires signing key"))
  else
    let config := withDefaultsFrom pkg.DefaultJWTConfig config
    match bindExtractor config with
    | .panicked v => (pkg, .panicked v)
    | .returned r =>
      (pkg, .returned (fun next c =>
        let run := handle parse r.config r.extractor next c
        (run.ctx, run.ret)))

/-- The function `JWT` with the package variable as explicit state:
`c := DefaultJWTConfig` copies the struct into the local `c`,
`c.SigningKey = key` writes that local, and `c` is passed by value. -/
def JWTIn (parse : Parser) (pkg : Package) (key : Bytes) : Package × Go GasFunc :=
  let c := pkg.DefaultJWTConfig
  let c := { c with SigningKey := key }
  JWTWithConfigIn parse pkg c

/-- A configuration with key "secret", signing method "HS512", the context
key left empty, and token lookup "query:token". -/
def sampleConfig : JWTConfig :=
  { SigningKey := some (goStr "secret"), SigningMethod := goStr "HS512",
    ContextKey := goStr "", TokenLookup := goStr "query:token" }

/-! ## Helper lemmas -/

theorem bearer_length : bearer.length = 6 := by decide

theorem jwtFromHeader_accept (header : GoString) (c : Context)
    (h : (c.header header).length > 7 ∧ (c.header header).take 6 = bearer) :
    jwtFromHeader header c = ((c.header header).drop 7, none) := by
  simp [jwtFromHeader, bearer_length, h.1, h.2]

theorem jwtFromHeader_reject (header : GoString) (c : Context)
    (h : ¬ ((c.header header).length > 7 ∧ (c.header header).take 6 = bearer)) :
    jwtFromHeader header c =
      (goStr "", some (.errorString (goStr "empty or invalid jwt in authorization header"))) := by
  unfold jwtFromHeader
  simp only [bearer_length]
  rw [if_neg]
  simpa using h

theorem bearer_bytes : bearer = [66, 101, 97, 114, 101, 114] := by decide

theorem jwtFromHeader_skip_byte (header : GoString) (c : Context) (b : UInt8) (t : GoString)
    (ht : t ≠ []) (hV : c.header header = bearer ++ b :: t) :
    jwtFromHeader header c = (t, none) := by
  have hlen : 0 < t.length := List.length_pos.mpr ht
  have h := jwtFromHeader_accept header c (by
    rw [hV, bearer_bytes]
    constructor
    · simp; omega
    · simp)
  rw [h, hV, bearer_bytes]
  simp

theorem jwtFromHeader_accept_inv (header : GoString) (c : Context)
    (h : (jwtFromHeader header c).2 = none) :
    (c.header header).length > 7 ∧ (c.header header).take 6 = bearer := by
  by_contra hn
  rw [jwtFromHeader_reject header c hn] at h
  simp at h

theorem bindExtractor_panic (config : JWTConfig) (v : GoString)
    (h : bindExtractor config = .panicked v) : v = indexOutOfRange := by
  unfold bindExtractor at h
  split at h
  · cases h
  · cases h
    rfl

theorem stringsSplit_ne_nil (sep : UInt8) (s : GoString) : stringsSplit sep s ≠ [] := by
  cases s with
  | nil => simp [stringsSplit]
  | cons b rest =>
    unfold stringsSplit
    by_cases hb : b = sep
    · simp [hb]
    · simp only [hb, if_false]
      split <;> simp

theorem stringsSplit_no_sep (sep : UInt8) (s : GoString) (h : sep ∉ s) :
    stringsSplit sep s = [s] := by
  induction s with
  | nil => rfl
  | cons b rest ih =>
    have hb : b ≠ sep := fun e => h (by simp [e])
    have hr : sep ∉ rest := fun e => h (by simp [e])
    unfold stringsSplit
    simp [hb, ih hr]

theorem stringsSplit_append (sep : UInt8) (a s : GoString) (h : sep ∉ a) :
    stringsSplit sep (a ++ sep :: s) = a :: stringsSplit sep s := by
  induction a with
  | nil =>
    show stringsSplit sep (sep :: s) = _
    rw [stringsSplit]
    simp
  | cons b rest ih =>
    have hb : b ≠ sep := fun e => h (by simp [e])
    have hr : sep ∉ rest := fun e => h (by simp [e])
    show stringsSplit sep (b :: (rest ++ sep :: s)) = _
    rw [stringsSplit]
    simp [hb, ih hr]

theorem stringsSplit_length (sep : UInt8) (s : GoString) :
    (stringsSplit sep s).length = s.count sep + 1 := by
  induction s with
  | nil => rfl
  | cons b rest ih =>
    rw [stringsSplit]
    by_cases hb : b = sep
    · subst hb
      simp [ih]
    · have hne := stringsSplit_ne_nil sep rest
      rcases hs : stringsSplit sep rest with _ | ⟨p, ps⟩
      · exact absurd hs hne
      · rw [hs] at ih
        simp only [hb, if_false]
        rw [List.count_cons_of_ne (Ne.symm hb)] 
        simpa using ih

theorem stringsSplit_two_iff (sep : UInt8) (s : GoString) :
    2 ≤ (stringsSplit sep s).length ↔ sep ∈ s := by
  rw [stringsSplit_length, ← List.count_pos_iff]
  omega

theorem bindExtractor_of_split (config : JWTConfig) (p0 p1 : GoString) (ps : List GoString)
    (h : stringsSplit 58 config.TokenLookup = p0 :: p1 :: ps) :
    bindExtractor config = .returned
      { config := config,
        extractor := if p0 = goStr "query" then jwtFromQuery p1 else jwtFromHeader p1 } := by
  unfold bindExtractor
  rw [h]

theorem bindExtractor_isPanic (config : JWTConfig) :
    (bindExtractor config).isPanic = false ↔ 58 ∈ config.TokenLookup := by
  rw [← stringsSplit_two_iff]
  unfold bindExtractor
  rcases hs : stringsSplit 58 config.TokenLookup with _ | ⟨p0, _ | ⟨p1, ps⟩⟩ <;>
    simp [Go.isPanic]

theorem jwtFromHeader_ne_jwtFromQuery (header param : GoString) :
    jwtFromHeader header ≠ jwtFromQuery param := by
  intro h
  have h1 : (jwtFromHeader header (requestWithQuery param (goStr "x"))).2 =
      (jwtFromQuery param (requestWithQuery param (goStr "x"))).2 := by rw [h]
  have h2 : (jwtFromHeader header (requestWithQuery param (goStr "x"))).2 =
      some (.errorString (goStr "empty or invalid jwt in authorization header")) := rfl
  have h3 : (jwtFromQuery param (requestWithQuery param (goStr "x"))).2 = none := by
    simp [jwtFromQuery, requestWithQuery]
    decide
  rw [h2, h3] at h1
  cases h1

theorem bindExtractor_config (config : JWTConfig) (r : Resolved)
    (h : bindExtractor config = .returned r) : r.config = config := by
  unfold bindExtractor at h
  split at h
  · cases h
    rfl
  · cases h

theorem jwtFromQuery_empty (param : GoString) (c : Context)
    (h : c.queryParam param = goStr "") :
    jwtFromQuery param c =
      (goStr "", some (.errorString (goStr "empty jwt in query param"))) := by
  simp [jwtFromQuery, h]

theorem jwtFromQuery_nonempty (param : GoString) (c : Context)
    (h : c.queryParam param ≠ goStr "") :
    jwtFromQuery param c = (c.queryParam param, none) := by
  simp [jwtFromQuery, h]

theorem colon_bytes : goStr ":" = [58] := by decide

theorem bindExtractor_one_colon (config : JWTConfig) (source name : GoString)
    (hs : (58 : UInt8) ∉ source) (hn : (58 : UInt8) ∉ name)
    (hl : config.TokenLookup = source ++ goStr ":" ++ name) :
    bindExtractor config = .returned
      { config := config,
        extractor :=
          if source = goStr "query" then jwtFromQuery name else jwtFromHeader name } := by
  apply bindExtractor_of_split config source name []
  rw [hl, colon_bytes, List.append_assoc]
  show stringsSplit 58 (source ++ 58 :: name) = _
  rw [stringsSplit_append 58 source name hs, stringsSplit_no_sep 58 name hn]

theorem bindExtractor_more_colons (config : JWTConfig) (source name rest : GoString)
    (hs : (58 : UInt8) ∉ source) (hn : (58 : UInt8) ∉ name)
    (hl : config.TokenLookup = source ++ goStr ":" ++ name ++ goStr ":" ++ rest) :
    bindExtractor config = .returned
      { config := config,
        extractor :=
          if source = goStr "query" then jwtFromQuery name else jwtFromHeader name } := by
  have hne := stringsSplit_ne_nil 58 rest
  rcases hr : stringsSplit 58 rest with _ | ⟨p, ps⟩
  · exact absurd hr hne
  · apply bindExtractor_of_split config source name (p :: ps)
    rw [hl, colon_bytes]
    have e : source ++ [58] ++ name ++ [58] ++ rest = source ++ 58 :: (name ++ 58 :: rest) := by
      simp
    rw [e, stringsSplit_append 58 source _ hs, stringsSplit_append 58 name rest hn, hr]

theorem JWTWithConfig_isPanic (parse : Parser) (config : JWTConfig) :
    (JWTWithConfig parse config).isPanic = (resolve config).isPanic := by
  unfold JWTWithConfig
  cases resolve config <;> rfl

theorem withDefaults_default_key (k : Bytes) :
    withDefaults { DefaultJWTConfig with SigningKey := k } = spelledDefaults k := by
  have h1 : ¬ goStr "HS256" = goStr "" := by decide
  have h2 : ¬ goStr "user" = goStr "" := by decide
  have h4 : goStr "header:" ++ HeaderAuthorization = goStr "header:Authorization" := by decide
  simp only [withDefaults, DefaultJWTConfig, AlgorithmHS256, spelledDefaults, h1, h2, h4,
    if_false, ite_self]

theorem withDefaults_keyOnly (k : Bytes) :
    withDefaults (keyOnlyConfig k) = spelledDefaults k := by
  have h4 : goStr "header:" ++ HeaderAuthorization = goStr "header:Authorization" := by decide
  simp only [withDefaults, keyOnlyConfig, DefaultJWTConfig, AlgorithmHS256, spelledDefaults,
    h4, if_true]

theorem bindExtractor_default (k : Bytes) :
    bindExtractor (spelledDefaults k) = .returned
      { config := spelledDefaults k, extractor := jwtFromHeader (goStr "Authorization") } := by
  have hq : ¬ goStr "header" = goStr "query" := by decide
  have hsplit : stringsSplit 58 (goStr "header:Authorization") =
      [goStr "header", goStr "Authorization"] := by decide
  rw [bindExtractor_of_split (spelledDefaults k) (goStr "header") (goStr "Authorization") []
    hsplit]
  simp only [hq, if_false]

theorem resolve_default_key (k : Bytes) :
    resolve { DefaultJWTConfig with SigningKey := k } = resolve (keyOnlyConfig k) := by
  unfold resolve
  rw [withDefaults_default_key, withDefaults_keyOnly]
  rfl

theorem handle_parse_call (parse : Parser) (config : JWTConfig) (extractor : jwtExtractor)
    (next : HandlerFunc) (c : Context) (auth : GoString)
    (h : Call.parse auth ∈ (handle parse config extractor next c).calls) :
    extractor c = (auth, none) := by
  unfold handle at h
  rcases he : extractor c with ⟨a, _ | err⟩
  · rw [he] at h
    have ha : a = auth := by
      rcases hp : parse a (keyFunc config) with ⟨_ | token, _ | perr⟩ | v
      · simp [hp] at h; exact h.symm
      · simp [hp] at h; exact h.symm
      · by_cases hv : token.Valid = true
        · simp [hp, hv] at h; exact h.symm
        · simp [hp, hv] at h; exact h.symm
      · simp [hp] at h; exact h.symm
      · simp [hp] at h; exact h.symm
    rw [ha]
  · rw [he] at h
    simp at h

theorem resolved_lookup (config : JWTConfig) :
    (withDefaults config).TokenLookup =
      (if config.TokenLookup = goStr "" then goStr "header:Authorization"
        else config.TokenLookup) := by
  have hd : goStr "header:" ++ HeaderAuthorization = goStr "header:Authorization" := by
    decide
  unfold withDefaults
  by_cases h1 : config.SigningMethod = goStr "" <;>
    by_cases h2 : config.ContextKey = goStr "" <;>
    by_cases h3 : config.TokenLookup = goStr "" <;>
    simp [h1, h2, h3, DefaultJWTConfig, hd]

theorem JWTWithConfig_of_resolve (parse : Parser) (config : JWTConfig) (r : Resolved)
    (h : resolve config = .returned r) :
    JWTWithConfig parse config = .returned (fun next c =>
      ((handle parse r.config r.extractor next c).ctx,
        (handle parse r.config r.extractor next c).ret)) := by
  unfold JWTWithConfig
  rw [h]

theorem resolve_of_key (config : JWTConfig) (hk : config.SigningKey ≠ none) :
    resolve config = bindExtractor (withDefaults config) := by
  unfold resolve
  rw [if_neg hk]

theorem resolve_returned (config : JWTConfig) (r : Resolved)
    (h : resolve config = .returned r) :
    config.SigningKey ≠ none ∧ bindExtractor (withDefaults config) = .returned r ∧
      r.config = withDefaults config := by
  by_cases hk : config.SigningKey = none
  · unfold resolve at h
    rw [if_pos hk] at h
    cases h
  · rw [resolve_of_key config hk] at h
    exact ⟨hk, h, bindExtractor_config _ r h⟩

theorem bindExtractor_returns (config : JWTConfig) (h : (58 : UInt8) ∈ config.TokenLookup) :
    ∃ extractor : jwtExtractor,
      bindExtractor config = .returned { config := config, extractor := extractor } := by
  have hp := (bindExtractor_isPanic config).mpr h
  rcases hb : bindExtractor config with r | v
  · have hc := bindExtractor_config config r hb
    refine ⟨r.extractor, ?_⟩
    cases r
    simp only at hc
    rw [hc]
  · rw [hb] at hp
    cases hp

theorem withDefaultsFrom_initial (config : JWTConfig) :
    withDefaultsFrom initialPackage.DefaultJWTConfig config = withDefaults config := rfl

theorem JWTWithConfigIn_fst (parse : Parser) (pkg : Package) (config : JWTConfig) :
    (JWTWithConfigIn parse pkg config).1 = pkg := by
  unfold JWTWithConfigIn
  by_cases hk : config.SigningKey = none
  · rw [if_pos hk]
  · rw [if_neg hk]
    simp only
    split <;> rfl

theorem JWTWithConfigIn_initial (parse : Parser) (config : JWTConfig) :
    (JWTWithConfigIn parse initialPackage config).2 = JWTWithConfig parse config := by
  unfold JWTWithConfigIn JWTWithConfig resolve
  by_cases hk : config.SigningKey = none
  · rw [if_pos hk, if_pos hk]
  · rw [if_neg hk, if_neg hk]
    simp only [withDefaultsFrom_initial]
    cases bindExtractor (withDefaults config) <;> rfl

theorem withDefaultsFrom_copy (d : JWTConfig) (k : Bytes) :
    withDefaultsFrom d { d with SigningKey := k } = withDefaultsFrom d (keyOnlyConfig k) := by
  unfold withDefaultsFrom keyOnlyConfig
  by_cases h1 : d.SigningMethod = goStr "" <;>
    by_cases h2 : d.ContextKey = goStr "" <;>
    by_cases h3 : d.TokenLookup = goStr "" <;>
    simp [h1, h2, h3]

/-! ## The header extractor -/

/-- C1: for every header value V (read through the context, an absent header
being the empty string) `jwtFromHeader` succeeds iff `len(V) > 7` and the first
six bytes of V are "Bearer"; on success it returns exactly `V[7:]`, on failure
the empty string together with an error. -/
theorem jwtFromHeader_contract (header : GoString) (c : Context) :
    ((jwtFromHeader header c).2 = none ↔
      ((c.header header).length > 7 ∧ (c.header header).take 6 = goStr "Bearer")) ∧
    (((jwtFromHeader header c).2 = none ∧
        (jwtFromHeader header c).1 = (c.header header).drop 7) ∨
      ((jwtFromHeader header c).2 ≠ none ∧ (jwtFromHeader header c).1 = goStr "")) := by
  by_cases h : (c.header header).length > 7 ∧ (c.header header).take 6 = bearer
  · rw [jwtFromHeader_accept header c h]
    exact ⟨⟨fun _ => h, fun _ => rfl⟩, Or.inl ⟨rfl, rfl⟩⟩
  · rw [jwtFromHeader_reject header c h]
    refine ⟨⟨fun h0 => ?_, fun h1 => absurd h1 h⟩, Or.inr ⟨by simp, rfl⟩⟩
    simp at h0

/-- C8: for every non-empty token string t, a header value "Bearer " followed
by t is accepted and the extractor returns exactly t; the values "Bearer " and
"Bearer" (no token) are rejected. -/
theorem jwtFromHeader_bearer_token (header : GoString) (c : Context) :
    (∀ t : GoString, t ≠ [] → c.header header = goStr "Bearer " ++ t →
      jwtFromHeader header c = (t, none)) ∧
    (c.header header = goStr "Bearer " → (jwtFromHeader header c).2 ≠ none) ∧
    (c.header header = goStr "Bearer" → (jwtFromHeader header c).2 ≠ none) := by
  refine ⟨fun t ht hV => ?_, fun hV => ?_, fun hV => ?_⟩
  · apply jwtFromHeader_skip_byte header c 32 t ht
    rw [hV, bearer_bytes]
    have : goStr "Bearer " = [66, 101, 97, 114, 101, 114, 32] := by decide
    rw [this]; rfl
  · rw [jwtFromHeader_reject header c (by rw [hV]; decide)]
    simp
  · rw [jwtFromHeader_reject header c (by rw [hV]; decide)]
    simp

/-- Witness for C8 at the values "Bearer eyJ.e30.sig", "Bearer " and "Bearer". -/
theorem jwtFromHeader_bearer_token_witness :
    jwtFromHeader (goStr "Authorization")
        (requestWithHeader (goStr "Authorization") (goStr "Bearer eyJ.e30.sig")) =
      (goStr "eyJ.e30.sig", none) ∧
    (jwtFromHeader (goStr "Authorization")
        (requestWithHeader (goStr "Authorization") (goStr "Bearer "))).2 ≠ none ∧
    (jwtFromHeader (goStr "Authorization")
        (requestWithHeader (goStr "Authorization") (goStr "Bearer"))).2 ≠ none :=
  ⟨(jwtFromHeader_bearer_token (goStr "Authorization")
      (requestWithHeader (goStr "Authorization") (goStr "Bearer eyJ.e30.sig"))).1
      (goStr "eyJ.e30.sig") (by decide) (by decide),
   (jwtFromHeader_bearer_token (goStr "Authorization")
      (requestWithHeader (goStr "Authorization") (goStr "Bearer "))).2.1 (by decide),
   (jwtFromHeader_bearer_token (goStr "Authorization")
      (requestWithHeader (goStr "Authorization") (goStr "Bearer"))).2.2 (by decide)⟩

/-- C9, as stated, fails: the value "BearerXabc", whose byte at index 6 is
'X' (88) and not a space (32), is accepted, with credential "abc". -/
theorem jwtFromHeader_separator_counterexample :
    (goStr "BearerXabc")[6]? = some 88 ∧
    jwtFromHeader (goStr "Authorization")
        (requestWithHeader (goStr "Authorization") (goStr "BearerXabc")) =
      (goStr "abc", none) := by
  decide

/-- C9, amended: every accepted header value V is "Bearer", then one byte that
the extractor skips without looking at it, then the returned credential, which
is not empty; and whatever that byte is, "Bearer" followed by it and a
non-empty t is accepted with credential t. -/
theorem jwtFromHeader_accepted_shape (header : GoString) (c : Context) :
    ((jwtFromHeader header c).2 = none →
      (jwtFromHeader header c).1 ≠ [] ∧
      ∃ b : UInt8, c.header header = goStr "Bearer" ++ b :: (jwtFromHeader header c).1) ∧
    (∀ (b : UInt8) (t : GoString), t ≠ [] → c.header header = goStr "Bearer" ++ b :: t →
      jwtFromHeader header c = (t, none)) := by
  refine ⟨fun h => ?_, fun b t ht hV => jwtFromHeader_skip_byte header c b t ht hV⟩
  have hc := jwtFromHeader_accept_inv header c h
  rw [jwtFromHeader_accept header c hc]
  obtain ⟨hlen, htake⟩ := hc
  have h6 : 6 < (c.header header).length := by omega
  refine ⟨?_, (c.header header)[6], ?_⟩
  · intro h0
    have := congrArg List.length h0
    simp at this
    omega
  · have h1 : (c.header header).drop 6 = (c.header header)[6] :: (c.header header).drop 7 :=
      List.drop_eq_getElem_cons h6
    calc c.header header
        = (c.header header).take 6 ++ (c.header header).drop 6 :=
          (List.take_append_drop 6 _).symm
      _ = goStr "Bearer" ++ (c.header header)[6] :: (c.header header).drop 7 := by
          rw [htake, h1]; rfl

/-- Witness for C9 (amended) at the value "Bearer-t0k3n". -/
theorem jwtFromHeader_accepted_shape_witness :
    (jwtFromHeader (goStr "X-Token")
        (requestWithHeader (goStr "X-Token") (goStr "Bearer-t0k3n"))).1 ≠ [] ∧
    (∃ b : UInt8, (requestWithHeader (goStr "X-Token") (goStr "Bearer-t0k3n")).header
        (goStr "X-Token") =
      goStr "Bearer" ++ b :: (jwtFromHeader (goStr "X-Token")
        (requestWithHeader (goStr "X-Token") (goStr "Bearer-t0k3n"))).1) ∧
    jwtFromHeader (goStr "X-Token")
        (requestWithHeader (goStr "X-Token") (goStr "Bearer-t0k3n")) =
      (goStr "t0k3n", none) :=
  ⟨((jwtFromHeader_accepted_shape (goStr "X-Token")
      (requestWithHeader (goStr "X-Token") (goStr "Bearer-t0k3n"))).1 (by decide)).1,
   ((jwtFromHeader_accepted_shape (goStr "X-Token")
      (requestWithHeader (goStr "X-Token") (goStr "Bearer-t0k3n"))).1 (by decide)).2,
   (jwtFromHeader_accepted_shape (goStr "X-Token")
      (requestWithHeader (goStr "X-Token") (goStr "Bearer-t0k3n"))).2 45 (goStr "t0k3n")
      (by decide) (by decide)⟩

/-- C10, as stated, fails: "Bearer" followed by two spaces and "abc" is
accepted, and the returned credential " abc" begins with a space. -/
theorem jwtFromHeader_two_spaces_counterexample :
    jwtFromHeader (goStr "Authorization")
        (requestWithHeader (goStr "Authorization") (goStr "Bearer  abc")) =
      (goStr " abc", none) ∧
    (goStr " abc").head? = some 32 := by
  decide

/-- C10, amended: for every string t and every n ≥ 2, the header value
"Bearer" followed by n spaces and then t is accepted; the extractor strips
"Bearer" and one space only, so the returned credential is the remaining
n - 1 spaces followed by t. -/
theorem jwtFromHeader_many_spaces (header : GoString) (c : Context) (n : Nat)
    (t : GoString) (hn : 2 ≤ n)
    (hV : c.header header = goStr "Bearer" ++ List.replicate n 32 ++ t) :
    jwtFromHeader header c = (List.replicate (n - 1) 32 ++ t, none) := by
  obtain ⟨m, rfl⟩ : ∃ m, n = m + 2 := ⟨n - 2, by omega⟩
  apply jwtFromHeader_skip_byte header c 32
  · simp [List.replicate_succ]
  · rw [hV]
    simp [List.replicate_succ, bearer]

/-- Witness for C10 (amended) at "Bearer" followed by three spaces and "x.y.z". -/
theorem jwtFromHeader_many_spaces_witness :
    jwtFromHeader (goStr "Authorization")
        (requestWithHeader (goStr "Authorization") (goStr "Bearer   x.y.z")) =
      (goStr "  x.y.z", none) :=
  jwtFromHeader_many_spaces (goStr "Authorization")
    (requestWithHeader (goStr "Authorization") (goStr "Bearer   x.y.z")) 3 (goStr "x.y.z")
    (by decide) (by decide)

/-! ## The key-supply callback -/

/-- C3: the key-supply callback returns the configured signing key with no
error iff the token's declared algorithm is string-equal to the configured
signing method; it hands out a key in no other case; and for every other
declared algorithm it returns an error and no key. -/
theorem keyFunc_supplies_key_iff (config : JWTConfig) (t : Token) :
    (keyFunc config t = .returned (some config.SigningKey, none) ↔
      t.Method = some config.SigningMethod) ∧
    (∀ (k : Bytes) (e : Option GoError), keyFunc config t = .returned (some k, e) →
      t.Method = some config.SigningMethod) ∧
    (∀ alg : GoString, t.Method = some alg → alg ≠ config.SigningMethod →
      ∃ e : GoError, keyFunc config t = .returned (none, some e)) := by
  unfold keyFunc
  rcases hm : t.Method with _ | alg
  · simp
  · by_cases ha : alg = config.SigningMethod
    · simp [ha]
    · simp [ha]

/-- Witness for C3: with signing method "HS256", tokens declaring "none",
"RS256" or "hs256" get an error and no key. -/
theorem keyFunc_supplies_key_iff_witness :
    (∃ e : GoError, keyFunc DefaultJWTConfig (sampleToken (goStr "none") true) =
      .returned (none, some e)) ∧
    (∃ e : GoError, keyFunc DefaultJWTConfig (sampleToken (goStr "RS256") true) =
      .returned (none, some e)) ∧
    (∃ e : GoError, keyFunc DefaultJWTConfig (sampleToken (goStr "hs256") true) =
      .returned (none, some e)) ∧
    keyFunc (keyOnlyConfig (some (goStr "secret"))) (sampleToken (goStr "") true) =
      .returned (some (some (goStr "secret")), none) :=
  ⟨(keyFunc_supplies_key_iff DefaultJWTConfig (sampleToken (goStr "none") true)).2.2
      (goStr "none") rfl (by decide),
   (keyFunc_supplies_key_iff DefaultJWTConfig (sampleToken (goStr "RS256") true)).2.2
      (goStr "RS256") rfl (by decide),
   (keyFunc_supplies_key_iff DefaultJWTConfig (sampleToken (goStr "hs256") true)).2.2
      (goStr "hs256") rfl (by decide),
   (keyFunc_supplies_key_iff (keyOnlyConfig (some (goStr "secret")))
      (sampleToken (goStr "") true)).1.mpr rfl⟩

/-! ## Construction -/

/-- C4, as stated, fails: with a present but empty signing key (and every
other field left empty) `JWTWithConfig` does not panic; it returns a
middleware. -/
theorem JWTWithConfig_empty_key_counterexample :
    (keyOnlyConfig (some [])).SigningKey = some [] ∧
    (JWTWithConfig rejectingParser (keyOnlyConfig (some []))).isPanic = false := by
  decide

/-- C4, amended: `JWTWithConfig` panics with "jwt gas requires signing key",
returning no middleware, exactly when the signing key is absent (nil); a
present key, empty or not, never triggers that panic. -/
theorem JWTWithConfig_key_panic_iff (parse : Parser) (config : JWTConfig) :
    JWTWithConfig parse config = .panicked (goStr "jwt gas requires signing key") ↔
      config.SigningKey = none := by
  constructor
  · intro h
    by_contra hk
    unfold JWTWithConfig resolve at h
    rw [if_neg hk] at h
    rcases hb : bindExtractor (withDefaults config) with r | v
    · rw [hb] at h
      cases h
    · rw [hb, bindExtractor_panic _ v hb] at h
      have h2 : indexOutOfRange = goStr "jwt gas requires signing key" := Go.panicked.inj h
      revert h2
      decide
  · intro hk
    simp [JWTWithConfig, resolve, hk]

/-! ## The decorated handler -/

theorem JWTWithConfig_returned (parse : Parser) (config : JWTConfig) (r : Resolved)
    (h : resolve config = .returned r) :
    ∃ gas : GasFunc, JWTWithConfig parse config = .returned gas ∧
      ∀ (next : HandlerFunc) (c : Context),
        gas next c = ((handle parse r.config r.extractor next c).ctx,
          (handle parse r.config r.extractor next c).ret) := by
  refine ⟨_, ?_, fun _ _ => rfl⟩
  unfold JWTWithConfig
  rw [h]

/-- C5: when the extractor returns an error, the decorated handler returns an
HTTP error with status 400 whose message is the extractor's error text, makes
no collaborator call (no parse, no write to the context, no next) and leaves
the context as it was. -/
theorem extraction_error_is_400 (parse : Parser) (config : JWTConfig)
    (extractor : jwtExtractor) (next : HandlerFunc) (c : Context)
    (auth : GoString) (err : GoError) (he : extractor c = (auth, some err)) :
    (handle parse config extractor next c).ret =
        .returned (some (.httpError 400 err.Error)) ∧
      (handle parse config extractor next c).calls = [] ∧
      (handle parse config extractor next c).ctx = c := by
  unfold handle
  rw [he]
  exact ⟨rfl, rfl, rfl⟩

/-- Witness for C5: a request without the Authorization header, through the
header extractor. -/
theorem extraction_error_is_400_witness :
    (handle (fixedParser (goStr "HS256") true) DefaultJWTConfig
        (jwtFromHeader (goStr "Authorization")) okHandler
        (requestWithHeader (goStr "X-Other") (goStr "Bearer abc"))).ret =
      .returned (some (.httpError 400
        (goStr "empty or invalid jwt in authorization header"))) ∧
    (handle (fixedParser (goStr "HS256") true) DefaultJWTConfig
        (jwtFromHeader (goStr "Authorization")) okHandler
        (requestWithHeader (goStr "X-Other") (goStr "Bearer abc"))).calls = [] :=
  ⟨(extraction_error_is_400 (fixedParser (goStr "HS256") true) DefaultJWTConfig
      (jwtFromHeader (goStr "Authorization")) okHandler
      (requestWithHeader (goStr "X-Other") (goStr "Bearer abc")) (goStr "")
      (.errorString (goStr "empty or invalid jwt in authorization header")) (by decide)).1,
   (extraction_error_is_400 (fixedParser (goStr "HS256") true) DefaultJWTConfig
      (jwtFromHeader (goStr "Authorization")) okHandler
      (requestWithHeader (goStr "X-Other") (goStr "Bearer abc")) (goStr "")
      (.errorString (goStr "empty or invalid jwt in authorization header")) (by decide)).2.1⟩

theorem handle_verification_fails (parse : Parser) (config : JWTConfig)
    (extractor : jwtExtractor) (next : HandlerFunc) (c : Context) (auth : GoString)
    (he : extractor c = (auth, none))
    (hv : verificationFails (parse auth (keyFunc config)) = true) :
    (handle parse config extractor next c).ret = .returned (some ErrUnauthorized) ∧
      (handle parse config extractor next c).calls = [.parse auth] ∧
      (handle parse config extractor next c).ctx = c := by
  unfold handle
  rw [he]
  rcases hp : parse auth (keyFunc config) with ⟨_ | token, _ | perr⟩ | v
  · rw [hp] at hv; simp [verificationFails] at hv
  · simp [hp]
  · rw [hp] at hv
    have hval : token.Valid = false := by simpa [verificationFails] using hv
    simp [hp, hval]
  · simp [hp]
  · rw [hp] at hv; simp [verificationFails] at hv

/-- C6: for any two requests on which extraction succeeds and verification
fails (the parser returns an error of any kind, or a token whose `Valid` flag
is false), the decorated handler returns the same value, the framework's
401 Unauthorized error; its only collaborator call is the parse, so nothing is
written to the context, which is left as it was. -/
theorem verification_failure_is_uniform_401 (parse1 parse2 : Parser) (config : JWTConfig)
    (extractor : jwtExtractor) (next : HandlerFunc) (c1 c2 : Context)
    (auth1 auth2 : GoString)
    (he1 : extractor c1 = (auth1, none)) (he2 : extractor c2 = (auth2, none))
    (hv1 : verificationFails (parse1 auth1 (keyFunc config)) = true)
    (hv2 : verificationFails (parse2 auth2 (keyFunc config)) = true) :
    (handle parse1 config extractor next c1).ret =
        (handle parse2 config extractor next c2).ret ∧
      (handle parse1 config extractor next c1).ret = .returned (some ErrUnauthorized) ∧
      (handle parse1 config extractor next c1).calls = [.parse auth1] ∧
      (handle parse2 config extractor next c2).calls = [.parse auth2] ∧
      (handle parse1 config extractor next c1).ctx = c1 ∧
      (handle parse2 config extractor next c2).ctx = c2 := by
  obtain ⟨r1, k1, x1⟩ := handle_verification_fails parse1 config extractor next c1 auth1 he1 hv1
  obtain ⟨r2, k2, x2⟩ := handle_verification_fails parse2 config extractor next c2 auth2 he2 hv2
  exact ⟨r1.trans r2.symm, r1, k1, k2, x1, x2⟩

/-- Witness for C6: one request whose credential the parser rejects as
malformed, another whose token parses with `Valid` false. -/
theorem verification_failure_is_uniform_401_witness :
    (handle rejectingParser DefaultJWTConfig (jwtFromHeader (goStr "Authorization"))
        okHandler (requestWithHeader (goStr "Authorization") (goStr "Bearer garbage"))).ret =
      (handle (fixedParser (goStr "HS256") false) DefaultJWTConfig
        (jwtFromHeader (goStr "Authorization")) okHandler
        (requestWithHeader (goStr "Authorization") (goStr "Bearer a.b.c"))).ret ∧
    (handle rejectingParser DefaultJWTConfig (jwtFromHeader (goStr "Authorization"))
        okHandler (requestWithHeader (goStr "Authorization") (goStr "Bearer garbage"))).ret =
      .returned (some (.httpError 401 (goStr "Unauthorized"))) :=
  ⟨(verification_failure_is_uniform_401 rejectingParser (fixedParser (goStr "HS256") false)
      DefaultJWTConfig (jwtFromHeader (goStr "Authorization")) okHandler
      (requestWithHeader (goStr "Authorization") (goStr "Bearer garbage"))
      (requestWithHeader (goStr "Authorization") (goStr "Bearer a.b.c"))
      (goStr "garbage") (goStr "a.b.c") (by decide) (by decide) (by decide) (by decide)).1,
   (verification_failure_is_uniform_401 rejectingParser (fixedParser (goStr "HS256") false)
      DefaultJWTConfig (jwtFromHeader (goStr "Authorization")) okHandler
      (requestWithHeader (goStr "Authorization") (goStr "Bearer garbage"))
      (requestWithHeader (goStr "Authorization") (goStr "Bearer a.b.c"))
      (goStr "garbage") (goStr "a.b.c") (by decide) (by decide) (by decide) (by decide)).2.1⟩

/-- C7: when the credential is extracted and the token parses without error
with `Valid` true, the decorated handler stores that token in the context
under the configured context key (every other key, the headers and the query
parameters unchanged), then invokes next exactly once, on that context, and
returns exactly what next returns, leaving the context as next leaves it. -/
theorem valid_token_is_admitted (parse : Parser) (config : JWTConfig)
    (extractor : jwtExtractor) (next : HandlerFunc) (c : Context) (auth : GoString)
    (token : Token) (he : extractor c = (auth, none))
    (hp : parse auth (keyFunc config) = .returned (some token, none))
    (hv : token.Valid = true) :
    (handle parse config extractor next c).calls =
        [.parse auth, .set config.ContextKey (.token token),
          .next (c.Set config.ContextKey (.token token))] ∧
      ((handle parse config extractor next c).calls.filter Call.isNext).length = 1 ∧
      (c.Set config.ContextKey (.token token)).store config.ContextKey =
        some (.token token) ∧
      (∀ k : GoString, k ≠ config.ContextKey →
        (c.Set config.ContextKey (.token token)).store k = c.store k) ∧
      (c.Set config.ContextKey (.token token)).header = c.header ∧
      (c.Set config.ContextKey (.token token)).queryParam = c.queryParam ∧
      (handle parse config extractor next c).ret =
        (next (c.Set config.ContextKey (.token token))).2 ∧
      (handle parse config extractor next c).ctx =
        (next (c.Set config.ContextKey (.token token))).1 := by
  have hrun : handle parse config extractor next c =
      { calls := [.parse auth, .set config.ContextKey (.token token),
          .next (c.Set config.ContextKey (.token token))],
        ctx := (next (c.Set config.ContextKey (.token token))).1,
        ret := (next (c.Set config.ContextKey (.token token))).2 } := by
    unfold handle
    rw [he]
    simp only [hp, hv, if_true]
  rw [hrun]
  refine ⟨rfl, rfl, by simp [Context.Set], fun k hk => by simp [Context.Set, hk], rfl, rfl,
    rfl, rfl⟩

/-- Witness for C7: a valid token in front of a downstream handler that fails:
the downstream error comes back as it is, and the token sits under "user". -/
theorem valid_token_is_admitted_witness :
    (handle (fixedParser (goStr "HS256") true) DefaultJWTConfig
        (jwtFromHeader (goStr "Authorization")) failingHandler
        (requestWithHeader (goStr "Authorization") (goStr "Bearer a.b.c"))).ret =
      .returned (some (.foreign 7 (goStr "teapot"))) ∧
    (handle (fixedParser (goStr "HS256") true) DefaultJWTConfig
        (jwtFromHeader (goStr "Authorization")) failingHandler
        (requestWithHeader (goStr "Authorization") (goStr "Bearer a.b.c"))).ctx.store
        (goStr "user") = some (.token (sampleToken (goStr "HS256") true)) :=
  ⟨(valid_token_is_admitted (fixedParser (goStr "HS256") true) DefaultJWTConfig
      (jwtFromHeader (goStr "Authorization")) failingHandler
      (requestWithHeader (goStr "Authorization") (goStr "Bearer a.b.c")) (goStr "a.b.c")
      (sampleToken (goStr "HS256") true) (by decide) rfl rfl).2.2.2.2.2.2.1,
   by
    rw [(valid_token_is_admitted (fixedParser (goStr "HS256") true) DefaultJWTConfig
      (jwtFromHeader (goStr "Authorization")) failingHandler
      (requestWithHeader (goStr "Authorization") (goStr "Bearer a.b.c")) (goStr "a.b.c")
      (sampleToken (goStr "HS256") true) (by decide) rfl rfl).2.2.2.2.2.2.2]
    decide⟩

/-! ## The query extractor -/

/-- C11: for every query-parameter value q (read through the context, an
absent parameter being the empty string) `jwtFromQuery` fails iff q is empty;
for every non-empty q it succeeds and returns q unchanged, nothing required
at its start and nothing stripped from it. -/
theorem jwtFromQuery_contract (param : GoString) (c : Context) :
    ((jwtFromQuery param c).2 ≠ none ↔ c.queryParam param = goStr "") ∧
    (c.queryParam param ≠ goStr "" →
      jwtFromQuery param c = (c.queryParam param, none)) := by
  refine ⟨?_, jwtFromQuery_nonempty param c⟩
  by_cases h : c.queryParam param = goStr ""
  · rw [jwtFromQuery_empty param c h]
    simp [h]
  · rw [jwtFromQuery_nonempty param c h]
    simp [h]

/-- Witness for C11: the value "Bearer abc" comes back as "Bearer abc". -/
theorem jwtFromQuery_contract_witness :
    jwtFromQuery (goStr "access_token")
        (requestWithQuery (goStr "access_token") (goStr "Bearer abc")) =
      (goStr "Bearer abc", none) :=
  (jwtFromQuery_contract (goStr "access_token")
    (requestWithQuery (goStr "access_token") (goStr "Bearer abc"))).2 (by decide)

/-! ## The resolved configuration -/

/-- C12: the configuration after the defaults has the supplied signing method
if non-empty and "HS256" otherwise, the supplied context key if non-empty and
"user" otherwise, the supplied token lookup if non-empty and
"header:Authorization" otherwise, and the supplied signing key. With a present
key it is the configuration the extractor is bound for, and every middleware
that `JWTWithConfig` returns is the decorated handler run on that
configuration (key callback and context key included) with the extractor
bound for it; with a present key and a ":" in the token lookup
`JWTWithConfig` does return a middleware. -/
theorem resolved_config_defaults (parse : Parser) (config : JWTConfig) :
    (withDefaults config).SigningMethod =
        (if config.SigningMethod = goStr "" then goStr "HS256" else config.SigningMethod) ∧
      (withDefaults config).ContextKey =
        (if config.ContextKey = goStr "" then goStr "user" else config.ContextKey) ∧
      (withDefaults config).TokenLookup =
        (if config.TokenLookup = goStr "" then goStr "header:Authorization"
          else config.TokenLookup) ∧
      (withDefaults config).SigningKey = config.SigningKey ∧
      (config.SigningKey ≠ none → resolve config = bindExtractor (withDefaults config)) ∧
      (∀ r : Resolved, resolve config = .returned r → r.config = withDefaults config) ∧
      (∀ gas : GasFunc, JWTWithConfig parse config = .returned gas →
        ∃ extractor : jwtExtractor,
          bindExtractor (withDefaults config) =
            .returned { config := withDefaults config, extractor := extractor } ∧
          gas = fun next c =>
            ((handle parse (withDefaults config) extractor next c).ctx,
              (handle parse (withDefaults config) extractor next c).ret)) ∧
      (config.SigningKey ≠ none → (58 : UInt8) ∈ (withDefaults config).TokenLookup →
        ∃ gas : GasFunc, JWTWithConfig parse config = .returned gas) := by
  refine ⟨?_, ?_, ?_, ?_, ?_, ?_, ?_, ?_⟩
  · unfold withDefaults
    by_cases h1 : config.SigningMethod = goStr "" <;>
      by_cases h2 : config.ContextKey = goStr "" <;>
      by_cases h3 : config.TokenLookup = goStr "" <;>
      simp [h1, h2, h3, DefaultJWTConfig, AlgorithmHS256]
  · unfold withDefaults
    by_cases h1 : config.SigningMethod = goStr "" <;>
      by_cases h2 : config.ContextKey = goStr "" <;>
      by_cases h3 : config.TokenLookup = goStr "" <;>
      simp [h1, h2, h3, DefaultJWTConfig]
  · exact resolved_lookup config
  · unfold withDefaults
    by_cases h1 : config.SigningMethod = goStr "" <;>
      by_cases h2 : config.ContextKey = goStr "" <;>
      by_cases h3 : config.TokenLookup = goStr "" <;>
      simp [h1, h2, h3]
  · exact resolve_of_key config
  · intro r hr
    exact (resolve_returned config r hr).2.2
  · intro gas hg
    rcases hr : resolve config with r | v
    · obtain ⟨_, hb, hc⟩ := resolve_returned config r hr
      unfold JWTWithConfig at hg
      rw [hr] at hg
      refine ⟨r.extractor, ?_, ?_⟩
      · rw [hb, ← hc]
      · rw [← hc]
        exact (Go.returned.inj hg).symm
    · unfold JWTWithConfig at hg
      rw [hr] at hg
      cases hg
  · intro hk hc
    obtain ⟨extractor, hb⟩ := bindExtractor_returns (withDefaults config) hc
    refine ⟨fun next c =>
      ((handle parse (withDefaults config) extractor next c).ctx,
        (handle parse (withDefaults config) extractor next c).ret), ?_⟩
    unfold JWTWithConfig
    rw [(resolve_of_key config hk).trans hb]

/-- Witness for C12: key "secret", signing method "HS512", lookup
"query:token", context key left empty. The middleware `JWTWithConfig` returns
admits a token declaring "HS512" (the supplied method, not the default) and
stores it under "user" (the default, the supplied key being empty). -/
theorem resolved_config_defaults_witness :
    ∃ gas : GasFunc,
      JWTWithConfig (keyAskingParser (goStr "HS512")) sampleConfig = .returned gas ∧
      (gas okHandler (requestWithQuery (goStr "token") (goStr "a.b.c"))).2 =
        .returned none ∧
      (gas okHandler (requestWithQuery (goStr "token") (goStr "a.b.c"))).1.store
        (goStr "user") = some (.token (sampleToken (goStr "HS512") true)) := by
  obtain ⟨gas, hg⟩ :=
    (resolved_config_defaults (keyAskingParser (goStr "HS512")) sampleConfig).2.2.2.2.2.2.2
      (by decide) (by decide)
  obtain ⟨extractor, hb, hgas⟩ :=
    (resolved_config_defaults (keyAskingParser (goStr "HS512")) sampleConfig).2.2.2.2.2.2.1
      gas hg
  have h0 : bindExtractor (withDefaults sampleConfig) =
      .returned { config := withDefaults sampleConfig,
                  extractor := jwtFromQuery (goStr "token") } := rfl
  rw [h0] at hb
  have hx : jwtFromQuery (goStr "token") = extractor :=
    (Resolved.mk.inj (Go.returned.inj hb)).2
  subst hx
  subst hgas
  exact ⟨_, hg, rfl, rfl⟩

/-! ## The token lookup -/

/-- C13, as stated, fails: "header:X-Auth:Token" is split at both colons, and
the header extractor is bound to "X-Auth": a request carrying the credential
in header "X-Auth:Token" is rejected, one carrying it in header "X-Auth" is
accepted. -/
theorem tokenLookup_first_colon_counterexample :
    stringsSplit 58 (goStr "header:X-Auth:Token") =
      [goStr "header", goStr "X-Auth", goStr "Token"] ∧
    boundExtractorOn (lookupConfig (some (goStr "secret")) (goStr "header:X-Auth:Token"))
        (requestWithHeader (goStr "X-Auth:Token") (goStr "Bearer abc")) =
      .returned (goStr "",
        some (.errorString (goStr "empty or invalid jwt in authorization header"))) ∧
    boundExtractorOn (lookupConfig (some (goStr "secret")) (goStr "header:X-Auth:Token"))
        (requestWithHeader (goStr "X-Auth") (goStr "Bearer abc")) =
      .returned (goStr "abc", none) := by
  decide

/-- C13, amended: the token lookup is split at every ":". The source is the
text before the first ":" and the name bound to the extractor is the text
between the first ":" and the second ":", or the whole remainder when there is
no second ":"; whatever follows a second ":" is ignored. -/
theorem tokenLookup_split_every_colon (config : JWTConfig) (source name : GoString)
    (hs : (58 : UInt8) ∉ source) (hn : (58 : UInt8) ∉ name) :
    (config.TokenLookup = source ++ goStr ":" ++ name →
      bindExtractor config = .returned
        { config := config,
          extractor :=
            if source = goStr "query" then jwtFromQuery name else jwtFromHeader name }) ∧
    (∀ rest : GoString, config.TokenLookup = source ++ goStr ":" ++ name ++ goStr ":" ++ rest →
      bindExtractor config = .returned
        { config := config,
          extractor :=
            if source = goStr "query" then jwtFromQuery name else jwtFromHeader name }) :=
  ⟨bindExtractor_one_colon config source name hs hn,
   fun rest => bindExtractor_more_colons config source name rest hs hn⟩

/-- Witness for C13 (amended): the lookups "header:X-Auth" and
"header:X-Auth:Token" bind the same extractor, the header extractor for
"X-Auth". -/
theorem tokenLookup_split_every_colon_witness :
    bindExtractor (lookupConfig (some (goStr "secret")) (goStr "header:X-Auth")) =
      .returned
        { config := lookupConfig (some (goStr "secret")) (goStr "header:X-Auth"),
          extractor :=
            if goStr "header" = goStr "query" then jwtFromQuery (goStr "X-Auth")
            else jwtFromHeader (goStr "X-Auth") } ∧
    bindExtractor (lookupConfig (some (goStr "secret")) (goStr "header:X-Auth:Token")) =
      .returned
        { config := lookupConfig (some (goStr "secret")) (goStr "header:X-Auth:Token"),
          extractor :=
            if goStr "header" = goStr "query" then jwtFromQuery (goStr "X-Auth")
            else jwtFromHeader (goStr "X-Auth") } :=
  ⟨(tokenLookup_split_every_colon
      (lookupConfig (some (goStr "secret")) (goStr "header:X-Auth"))
      (goStr "header") (goStr "X-Auth") (by decide) (by decide)).1 (by decide),
   (tokenLookup_split_every_colon
      (lookupConfig (some (goStr "secret")) (goStr "header:X-Auth:Token"))
      (goStr "header") (goStr "X-Auth") (by decide) (by decide)).2 (goStr "Token")
      (by decide)⟩

/-- C14: for a present key and a token lookup (after the defaults) whose
source is the text before the first ":" and whose name is the text after it
(up to a second ":", if any), `JWTWithConfig` returns a middleware, and that
middleware is the decorated handler run with the bound extractor, which is the
query extractor for name if and only if source is exactly "query"; for every
other source it is the header extractor for the same name. -/
theorem extractor_is_query_iff (parse : Parser) (config : JWTConfig)
    (source name : GoString) (hk : config.SigningKey ≠ none)
    (hs : (58 : UInt8) ∉ source) (hn : (58 : UInt8) ∉ name)
    (hl : (withDefaults config).TokenLookup = source ++ goStr ":" ++ name ∨
      ∃ rest : GoString,
        (withDefaults config).TokenLookup = source ++ goStr ":" ++ name ++ goStr ":" ++ rest) :
    ∃ extractor : jwtExtractor,
      JWTWithConfig parse config = .returned (fun next c =>
        ((handle parse (withDefaults config) extractor next c).ctx,
          (handle parse (withDefaults config) extractor next c).ret)) ∧
      resolve config =
        .returned { config := withDefaults config, extractor := extractor } ∧
      (extractor = jwtFromQuery name ↔ source = goStr "query") ∧
      (source ≠ goStr "query" → extractor = jwtFromHeader name) := by
  have hb : bindExtractor (withDefaults config) = .returned
      { config := withDefaults config,
        extractor :=
          if source = goStr "query" then jwtFromQuery name else jwtFromHeader name } := by
    rcases hl with hl | ⟨rest, hl⟩
    · exact bindExtractor_one_colon (withDefaults config) source name hs hn hl
    · exact bindExtractor_more_colons (withDefaults config) source name rest hs hn hl
  have hr := (resolve_of_key config hk).trans hb
  refine ⟨if source = goStr "query" then jwtFromQuery name else jwtFromHeader name,
    ?_, hr, ?_, ?_⟩
  · unfold JWTWithConfig
    rw [hr]
  · by_cases hq : source = goStr "query"
    · simp [hq]
    · simp only [hq, if_false, iff_false]
      exact jwtFromHeader_ne_jwtFromQuery name name
  · intro hq
    simp [hq]

/-- Witness for C14: with lookup "query:token" the returned middleware reads
query parameter "token" (a request carrying the credential there is admitted,
one carrying it in header "token" gets the query extractor's 400); with lookup
"Query:token" it reads header "token". -/
theorem extractor_is_query_iff_witness :
    (∃ gas : GasFunc,
      JWTWithConfig (fixedParser (goStr "HS256") true)
        (lookupConfig (some (goStr "secret")) (goStr "query:token")) = .returned gas ∧
      (gas okHandler (requestWithQuery (goStr "token") (goStr "a.b.c"))).2 =
        .returned none ∧
      (gas okHandler (requestWithHeader (goStr "token") (goStr "Bearer a.b.c"))).2 =
        .returned (some (.httpError 400 (goStr "empty jwt in query param")))) ∧
    (∃ gas : GasFunc,
      JWTWithConfig (fixedParser (goStr "HS256") true)
        (lookupConfig (some (goStr "secret")) (goStr "Query:token")) = .returned gas ∧
      (gas okHandler (requestWithHeader (goStr "token") (goStr "Bearer a.b.c"))).2 =
        .returned none ∧
      (gas okHandler (requestWithQuery (goStr "token") (goStr "a.b.c"))).2 =
        .returned (some (.httpError 400
          (goStr "empty or invalid jwt in authorization header")))) := by
  constructor
  · obtain ⟨extractor, hJ, _, hiff, _⟩ :=
      extractor_is_query_iff (fixedParser (goStr "HS256") true)
        (lookupConfig (some (goStr "secret")) (goStr "query:token"))
        (goStr "query") (goStr "token") (by decide) (by decide) (by decide)
        (Or.inl (by decide))
    have hx : extractor = jwtFromQuery (goStr "token") := hiff.mpr rfl
    subst hx
    exact ⟨_, hJ, rfl, rfl⟩
  · obtain ⟨extractor, hJ, _, _, hne⟩ :=
      extractor_is_query_iff (fixedParser (goStr "HS256") true)
        (lookupConfig (some (goStr "secret")) (goStr "Query:token"))
        (goStr "Query") (goStr "token") (by decide) (by decide) (by decide)
        (Or.inl (by decide))
    have hx : extractor = jwtFromHeader (goStr "token") := hne (by decide)
    subst hx
    exact ⟨_, hJ, rfl, rfl⟩

/-! ## Error texts -/

/-- C15, as stated, fails: for an absent header and for the value
"Basic Zm9vOmJhcg==" the error text is "empty or invalid jwt in authorization
header", which is not the text "empty or invalid credential in authorization
header". -/
theorem header_error_text_counterexample :
    (jwtFromHeader (goStr "Authorization")
        (requestWithQuery (goStr "q") (goStr "v"))).2 =
      some (.errorString (goStr "empty or invalid jwt in authorization header")) ∧
    (jwtFromHeader (goStr "Authorization")
        (requestWithHeader (goStr "Authorization") (goStr "Basic Zm9vOmJhcg=="))).2 =
      some (.errorString (goStr "empty or invalid jwt in authorization header")) ∧
    goStr "empty or invalid jwt in authorization header" ≠
      goStr "empty or invalid credential in authorization header" := by
  decide

/-- C15, amended: for every header value that the header extractor rejects,
the error text it returns, and hence the message of the resulting HTTP 400, is
exactly "empty or invalid jwt in authorization header". -/
theorem header_error_text (header : GoString) (c : Context)
    (h : (jwtFromHeader header c).2 ≠ none) :
    (∃ e : GoError, (jwtFromHeader header c).2 = some e ∧
      e.Error = goStr "empty or invalid jwt in authorization header") ∧
    ∀ (parse : Parser) (config : JWTConfig) (next : HandlerFunc),
      (handle parse config (jwtFromHeader header) next c).ret =
        .returned (some (.httpError 400
          (goStr "empty or invalid jwt in authorization header"))) := by
  have hr : ¬ ((c.header header).length > 7 ∧ (c.header header).take 6 = bearer) := by
    intro hc
    rw [jwtFromHeader_accept header c hc] at h
    exact h rfl
  have he := jwtFromHeader_reject header c hr
  refine ⟨⟨.errorString (goStr "empty or invalid jwt in authorization header"),
    by rw [he], rfl⟩, fun parse config next => ?_⟩
  unfold handle
  rw [he]
  rfl

/-- Witness for C15 (amended): the wrong scheme "Basic Zm9vOmJhcg==". -/
theorem header_error_text_witness :
    (handle rejectingParser DefaultJWTConfig (jwtFromHeader (goStr "Authorization"))
        okHandler
        (requestWithHeader (goStr "Authorization") (goStr "Basic Zm9vOmJhcg=="))).ret =
      .returned (some (.httpError 400
        (goStr "empty or invalid jwt in authorization header"))) :=
  (header_error_text (goStr "Authorization")
    (requestWithHeader (goStr "Authorization") (goStr "Basic Zm9vOmJhcg==")) (by decide)).2
    rejectingParser DefaultJWTConfig okHandler

/-- C16, as stated, fails: for an absent query parameter the error text is
"empty jwt in query param", which is not the text "empty credential in query
parameter". -/
theorem query_error_text_counterexample :
    (jwtFromQuery (goStr "access_token")
        (requestWithHeader (goStr "Authorization") (goStr "Bearer abc"))).2 =
      some (.errorString (goStr "empty jwt in query param")) ∧
    goStr "empty jwt in query param" ≠ goStr "empty credential in query parameter" := by
  decide

/-- C16, amended: for every request whose configured query parameter is absent
or empty, the error text returned by the query extractor, and hence the
message of the resulting HTTP 400, is exactly "empty jwt in query param". -/
theorem query_error_text (param : GoString) (c : Context)
    (h : c.queryParam param = goStr "") :
    (∃ e : GoError, (jwtFromQuery param c).2 = some e ∧
      e.Error = goStr "empty jwt in query param") ∧
    ∀ (parse : Parser) (config : JWTConfig) (next : HandlerFunc),
      (handle parse config (jwtFromQuery param) next c).ret =
        .returned (some (.httpError 400 (goStr "empty jwt in query param"))) := by
  have he := jwtFromQuery_empty param c h
  refine ⟨⟨.errorString (goStr "empty jwt in query param"), by rw [he], rfl⟩,
    fun parse config next => ?_⟩
  unfold handle
  rw [he]
  rfl

/-- Witness for C16 (amended): a request with the parameter present but
empty. -/
theorem query_error_text_witness :
    (handle rejectingParser DefaultJWTConfig (jwtFromQuery (goStr "access_token"))
        okHandler (requestWithQuery (goStr "access_token") (goStr ""))).ret =
      .returned (some (.httpError 400 (goStr "empty jwt in query param"))) :=
  (query_error_text (goStr "access_token")
    (requestWithQuery (goStr "access_token") (goStr "")) (by decide)).2
    rejectingParser DefaultJWTConfig okHandler

/-! ## `JWT` and construction -/

/-- C17: for every signing key k, `JWT(k)` is `JWTWithConfig` applied to the
configuration whose only populated field is the signing key k: the two results
are equal (so equal outcomes on every request and next handler), both panic
exactly when k is nil, and otherwise both resolve to signing method "HS256",
context key "user" and the header extractor for "Authorization", the returned
middleware being the decorated handler run on these. With the package variable
`DefaultJWTConfig` as explicit state, `JWT(k)` leaves the variable as it found
it, whatever its value, agrees with `JWTWithConfig` on the key-only
configuration for every value of the variable, and on the initial package its
result is the one above. -/
theorem JWT_is_JWTWithConfig_of_key (parse : Parser) (k : Bytes) :
    JWT parse k = JWTWithConfig parse (keyOnlyConfig k) ∧
    ((JWT parse k).isPanic = true ↔ k = none) ∧
    ((JWTWithConfig parse (keyOnlyConfig k)).isPanic = true ↔ k = none) ∧
    (k ≠ none →
      resolve { DefaultJWTConfig with SigningKey := k } = .returned
        { config := spelledDefaults k, extractor := jwtFromHeader (goStr "Authorization") } ∧
      resolve (keyOnlyConfig k) = .returned
        { config := spelledDefaults k, extractor := jwtFromHeader (goStr "Authorization") }) ∧
    (∀ gas1 gas2 : GasFunc, JWT parse k = .returned gas1 →
      JWTWithConfig parse (keyOnlyConfig k) = .returned gas2 →
      ∀ (next : HandlerFunc) (c : Context), gas1 next c = gas2 next c) ∧
    (k ≠ none → JWT parse k = .returned (fun next c =>
      ((handle parse (spelledDefaults k) (jwtFromHeader (goStr "Authorization")) next c).ctx,
        (handle parse (spelledDefaults k) (jwtFromHeader (goStr "Authorization")) next c).ret))) ∧
    (∀ pkg : Package, (JWTIn parse pkg k).1 = pkg) ∧
    (∀ pkg : Package, JWTIn parse pkg k = JWTWithConfigIn parse pkg (keyOnlyConfig k)) ∧
    (JWTIn parse initialPackage k).2 = JWT parse k := by
  have heq : JWT parse k = JWTWithConfig parse (keyOnlyConfig k) := by
    unfold JWT JWTWithConfig
    rw [resolve_default_key]
  have hres : k ≠ none → resolve (keyOnlyConfig k) = .returned
      { config := spelledDefaults k, extractor := jwtFromHeader (goStr "Authorization") } := by
    intro hk
    unfold resolve
    rw [if_neg (by simpa [keyOnlyConfig] using hk), withDefaults_keyOnly, bindExtractor_default]
  have hpanic : (JWTWithConfig parse (keyOnlyConfig k)).isPanic = true ↔ k = none := by
    rw [JWTWithConfig_isPanic]
    by_cases hk : k = none
    · subst hk
      simp [resolve, keyOnlyConfig, Go.isPanic]
    · rw [hres hk]
      simp [Go.isPanic, hk]
  refine ⟨heq, by rw [heq]; exact hpanic, hpanic, fun hk => ?_, fun gas1 gas2 h1 h2 next c => ?_,
    fun hk => ?_, fun pkg => ?_, fun pkg => ?_, ?_⟩
  · rw [resolve_default_key]
    exact ⟨hres hk, hres hk⟩
  · rw [heq, h2] at h1
    cases h1
    rfl
  · rw [heq]
    unfold JWTWithConfig
    rw [hres hk]
  · unfold JWTIn
    exact JWTWithConfigIn_fst parse pkg _
  · unfold JWTIn JWTWithConfigIn
    simp only [withDefaultsFrom_copy]
    rfl
  · unfold JWTIn
    exact JWTWithConfigIn_initial parse _

/-- Witness for C17: the key "secret"; on a request with a valid bearer token
the middleware `JWT` returns stores the token under "user", and the package
variable is as before. -/
theorem JWT_is_JWTWithConfig_of_key_witness :
    (resolve { DefaultJWTConfig with SigningKey := some (goStr "secret") } = .returned
        { config := spelledDefaults (some (goStr "secret")),
          extractor := jwtFromHeader (goStr "Authorization") } ∧
      resolve (keyOnlyConfig (some (goStr "secret"))) = .returned
        { config := spelledDefaults (some (goStr "secret")),
          extractor := jwtFromHeader (goStr "Authorization") }) ∧
    JWT (keyAskingParser (goStr "HS256")) (some (goStr "secret")) = .returned (fun next c =>
      ((handle (keyAskingParser (goStr "HS256")) (spelledDefaults (some (goStr "secret")))
          (jwtFromHeader (goStr "Authorization")) next c).ctx,
        (handle (keyAskingParser (goStr "HS256")) (spelledDefaults (some (goStr "secret")))
          (jwtFromHeader (goStr "Authorization")) next c).ret)) ∧
    (JWTIn (keyAskingParser (goStr "HS256")) initialPackage (some (goStr "secret"))).1 =
      initialPackage :=
  ⟨(JWT_is_JWTWithConfig_of_key rejectingParser (some (goStr "secret"))).2.2.2.1 (by decide),
   (JWT_is_JWTWithConfig_of_key (keyAskingParser (goStr "HS256"))
      (some (goStr "secret"))).2.2.2.2.2.1 (by decide),
   (JWT_is_JWTWithConfig_of_key (keyAskingParser (goStr "HS256"))
      (some (goStr "secret"))).2.2.2.2.2.2.1 initialPackage⟩

/-- C18: with a non-nil signing key, construction completes without a panic
iff the token lookup after the defaults contains a ":"; that is exactly when
the split has more than one part, so that `parts[1]` is in range; a non-empty
token lookup without any ":" makes construction panic with the index out of
range. -/
theorem construction_completes_iff (parse : Parser) (config : JWTConfig)
    (hk : config.SigningKey ≠ none) :
    ((JWTWithConfig parse config).isPanic = false ↔
        (58 : UInt8) ∈ (withDefaults config).TokenLookup) ∧
      ((58 : UInt8) ∈ (withDefaults config).TokenLookup ↔
        1 < (stringsSplit 58 (withDefaults config).TokenLookup).length) ∧
      (config.TokenLookup ≠ goStr "" → (58 : UInt8) ∉ config.TokenLookup →
        JWTWithConfig parse config = .panicked indexOutOfRange) := by
  have hres : resolve config = bindExtractor (withDefaults config) := by
    unfold resolve
    rw [if_neg hk]
  refine ⟨?_, ?_, fun hne hno => ?_⟩
  · rw [JWTWithConfig_isPanic, hres]
    exact bindExtractor_isPanic _
  · rw [← stringsSplit_two_iff]
    exact ⟨fun h => h, fun h => h⟩
  · have hl : (withDefaults config).TokenLookup = config.TokenLookup := by
      have := (resolved_lookup config)
      rw [this, if_neg hne]
    have hno2 : (58 : UInt8) ∉ (withDefaults config).TokenLookup := by rw [hl]; exact hno
    have hp : (bindExtractor (withDefaults config)).isPanic = true := by
      have := bindExtractor_isPanic (withDefaults config)
      cases hb : (bindExtractor (withDefaults config)).isPanic
      · exact absurd (this.mp hb) hno2
      · rfl
    unfold JWTWithConfig
    rw [hres]
    rcases hb : bindExtractor (withDefaults config) with r | v
    · rw [hb] at hp
      cases hp
    · rw [bindExtractor_panic _ v hb]

/-- Witness for C18: the token lookup "Authorization". -/
theorem construction_completes_iff_witness :
    JWTWithConfig rejectingParser (lookupConfig (some (goStr "secret")) (goStr "Authorization")) =
      .panicked indexOutOfRange :=
  (construction_completes_iff rejectingParser
    (lookupConfig (some (goStr "secret")) (goStr "Authorization")) (by decide)).2.2
    (by decide) (by decide)

/-! ## Extracted credentials -/

/-- C19: whenever an extractor succeeds, the credential it returns is
non-empty: for the header variant its length is exactly `len(V) - 7`, at least
1; for the query variant it is not the empty string; hence, with either
variant bound, every call the decorated handler makes to the token parser
carries a non-empty credential. -/
theorem extracted_credential_nonempty (name : GoString) (c : Context) :
    ((jwtFromHeader name c).2 = none →
      (jwtFromHeader name c).1.length = (c.header name).length - 7 ∧
      1 ≤ (jwtFromHeader name c).1.length) ∧
    ((jwtFromQuery name c).2 = none → (jwtFromQuery name c).1 ≠ goStr "") ∧
    (∀ (parse : Parser) (config : JWTConfig) (next : HandlerFunc) (auth : GoString),
      Call.parse auth ∈ (handle parse config (jwtFromHeader name) next c).calls →
        auth ≠ goStr "") ∧
    (∀ (parse : Parser) (config : JWTConfig) (next : HandlerFunc) (auth : GoString),
      Call.parse auth ∈ (handle parse config (jwtFromQuery name) next c).calls →
        auth ≠ goStr "") := by
  have hH : (jwtFromHeader name c).2 = none →
      (jwtFromHeader name c).1.length = (c.header name).length - 7 ∧
      1 ≤ (jwtFromHeader name c).1.length := by
    intro h
    have hc := jwtFromHeader_accept_inv name c h
    rw [jwtFromHeader_accept name c hc]
    have hlen := hc.1
    show ((c.header name).drop 7).length = (c.header name).length - 7 ∧
      1 ≤ ((c.header name).drop 7).length
    rw [List.length_drop]
    omega
  have hQ : (jwtFromQuery name c).2 = none → (jwtFromQuery name c).1 ≠ goStr "" := by
    intro h
    by_cases hq : c.queryParam name = goStr ""
    · rw [jwtFromQuery_empty name c hq] at h
      cases h
    · rw [jwtFromQuery_nonempty name c hq]
      exact hq
  refine ⟨hH, hQ, fun parse config next auth hcall => ?_, fun parse config next auth hcall => ?_⟩
  · have he := handle_parse_call parse config _ next c auth hcall
    have h2 := hH (by rw [he])
    rw [he] at h2
    intro h0
    rw [h0] at h2
    exact absurd h2.2 (by decide)
  · have he := handle_parse_call parse config _ next c auth hcall
    have h2 := hQ (by rw [he])
    rw [he] at h2
    exact h2

/-- Witness for C19: the header value "Bearer x" gives a credential of length
8 - 7 = 1, and the query value "t" a non-empty credential. -/
theorem extracted_credential_nonempty_witness :
    ((jwtFromHeader (goStr "Authorization")
        (requestWithHeader (goStr "Authorization") (goStr "Bearer x"))).1.length =
        ((requestWithHeader (goStr "Authorization") (goStr "Bearer x")).header
          (goStr "Authorization")).length - 7 ∧
      1 ≤ (jwtFromHeader (goStr "Authorization")
        (requestWithHeader (goStr "Authorization") (goStr "Bearer x"))).1.length) ∧
    (jwtFromQuery (goStr "Authorization")
        (requestWithQuery (goStr "Authorization") (goStr "t"))).1 ≠ goStr "" :=
  ⟨(extracted_credential_nonempty (goStr "Authorization")
      (requestWithHeader (goStr "Authorization") (goStr "Bearer x"))).1 (by decide),
   (extracted_credential_nonempty (goStr "Authorization")
      (requestWithQuery (goStr "Authorization") (goStr "t"))).2.1 (by decide)⟩

end Gases
